import Mathlib

/-!
Verification of the IndiVest portfolio risk analytics engine.

This file gives a shallow embedding, in Lean 4, of the risk-analysis code of
the repository (backend/app/routers/risk_analysis.py and
backend/app/services/analysis_service.py) and proves or refutes the frozen
specification claims about it.

Modelling conventions:
* Python/numpy floating point numbers are modelled as exact rationals; the
  square roots appearing in annualization and horizon scaling are modelled
  exactly in the real numbers.
* IEEE behaviour of float division by zero (signed infinity / NaN instead of
  an exception) is modelled by the type PFloat below.
* Python exceptions are modelled with Except PyErr; the catch-all
  `except Exception` handler of the router maps any error to an HTTP 500
  response.
* Python call semantics for keyword arguments are modelled by checking the
  call's keyword list against the callee's parameter list: an unexpected
  keyword raises TypeError before the callee body runs.
-/

/-- Python runtime errors relevant to the analysed code paths. -/
inductive PyErr where
  | typeError (kw : String)
  | nameError (v : String)
  | indexError
  | exception (msg : String)
deriving DecidableEq

/-- Result of a call to the FastAPI handler: either a successfully built
record or the catch-all HTTP 500 error response of the `except` clause. -/
inductive HandlerResult (α : Type) where
  | success (r : α)
  | http500 (e : PyErr)

/-- Python keyword-argument call semantics: if the call passes a keyword that
is not among the callee's parameters, the call raises `TypeError` and the
callee body is never entered. -/
def callWithKwargs {α : Type} (params kwargs : List String) (body : Unit → α) :
    Except PyErr α :=
  match kwargs.find? (fun k => !params.contains k) with
  | some k => .error (.typeError k)
  | none => .ok (body ())

/-- Parameter list of `generate_recommendations` as defined at
risk_analysis.py line 131: `def generate_recommendations(returns, weights,
symbols, risk_score)`. -/
def generate_recommendations_params : List String :=
  ["returns", "weights", "symbols", "risk_score"]

/-- Keyword arguments passed at the call site, risk_analysis.py lines
102-108: the call passes `risk_metrics=...` in addition to the four declared
parameters. -/
def analyze_call_kwargs : List String :=
  ["returns", "weights", "symbols", "risk_score", "risk_metrics"]

/-- Name lookup in the set of local variables bound on some path of
`analyze_portfolio_risk` before the `models.RiskAnalysis(...)` construction;
an absent name raises `NameError` (Python `var_95` is used at line 116 but
assigned nowhere in the function). The environment maps names of the
float-valued locals to their values. -/
def lookupLocal (env : List (String × ℚ)) (v : String) : Except PyErr ℚ :=
  match env.find? (fun p => p.1 = v) with
  | some p => .ok p.2
  | none => .error (.nameError v)

/-- Record built at risk_analysis.py lines 111-119 (`models.RiskAnalysis`). -/
structure RiskAnalysisRecord (Recs : Type) where
  risk_score : ℤ
  volatility : ℚ
  sharpe_ratio : ℚ
  var_95 : ℚ
  recommendations : Recs

/-- Tail of the `try` block of `analyze_portfolio_risk` (risk_analysis.py
lines 101-119), starting at the `generate_recommendations(...)` call: the
call passes the keyword `risk_metrics` (line 107) which the signature at
line 131 does not accept, and the record construction then reads the local
`var_95` (line 116) which is bound on no path.  The float locals bound at
that point are `volatility` and `sharpe_ratio` (the int local `risk_score`
is passed separately). -/
def analyzeTryTail {Recs : Type} (risk_score : ℤ) (volatility sharpe_ratio : ℚ)
    (recsBody : Unit → Recs) : Except PyErr (RiskAnalysisRecord Recs) := do
  let recs ← callWithKwargs generate_recommendations_params analyze_call_kwargs recsBody
  let v95 ← lookupLocal [("volatility", volatility), ("sharpe_ratio", sharpe_ratio)] ("var_95")
  pure { risk_score := risk_score, volatility := volatility,
         sharpe_ratio := sharpe_ratio, var_95 := v95, recommendations := recs }

/-- Catch-all `except Exception` clause at risk_analysis.py lines 127-128:
any error becomes an HTTP 500 response. -/
def handlerResponse {α : Type} (r : Except PyErr α) : HandlerResult α :=
  match r with
  | .ok rec => .success rec
  | .error e => .http500 e

/-- Weight normalization, risk_analysis.py line 59:
`weights = np.array(weights) / total_value if total_value > 0 else
np.array([1/len(weights)] * len(weights))`. -/
def resolveWeights (values : List ℚ) : List ℚ :=
  if 0 < values.sum then values.map (fun v => v / values.sum)
  else values.map (fun _ => 1 / (values.length : ℚ))

/-- Python `round` (also `np.float64.__round__`): round half to even. -/
def pyRound (q : ℚ) : ℤ :=
  if q - ⌊q⌋ < 1/2 then ⌊q⌋
  else if 1/2 < q - ⌊q⌋ then ⌊q⌋ + 1
  else if ⌊q⌋ % 2 = 0 then ⌊q⌋ else ⌊q⌋ + 1

/-- Risk score, risk_analysis.py lines 94-99: the three risk factors are
`volatility / 0.3`, `daily_var / 0.03` and `abs(sharpe_ratio - 2) / 2`; the
score is `min(10, max(1, round(np.mean(risk_factors) * 10)))`. -/
def riskScore (volatility daily_var sharpe_ratio : ℚ) : ℤ :=
  let risk_factors : List ℚ :=
    [volatility / (3/10), daily_var / (3/100), |sharpe_ratio - 2| / 2]
  min 10 (max 1 (pyRound (risk_factors.sum / risk_factors.length * 10)))

/-- Timeframe argument of `calculate_var`. -/
inductive Timeframe where
  | daily
  | weekly
  | monthly

/-- Extended float value: a finite real, a signed infinity, or NaN, as needed
to model IEEE float division by zero (numpy emits a warning, not an
exception, and produces an infinity or NaN). -/
inductive PFloat where
  | fin (x : ℝ)
  | inf
  | ninf
  | nan

/-- Ascending sort `np.sort(returns)` of analysis_service.py line 35. -/
def sortedReturns (rs : List ℚ) : List ℚ := rs.insertionSort (· ≤ ·)

/-- Python `int(...)` conversion: truncation toward zero. -/
def pyInt (q : ℚ) : ℤ := if 0 ≤ q then ⌊q⌋ else -⌊-q⌋

/-- Index `int((1 - confidence_level) * len(sorted_returns))` of
analysis_service.py line 38.  For `confidence_level ≤ 1` the argument is
nonnegative, so the truncation agrees with the floor; every claim constrains
the confidence level to (0,1), where the index is a nonnegative in-range
Python index whenever the series is nonempty. -/
def varIndex (c : ℚ) (n : ℕ) : ℕ := (pyInt ((1 - c) * n)).toNat

/-- Horizon scaling of `calculate_var` (analysis_service.py lines 43-47):
weekly multiplies by sqrt(5), monthly by sqrt(21), daily is unscaled. -/
noncomputable def scaleVar (v : ℝ) : Timeframe → ℝ
  | .daily => v
  | .weekly => v * Real.sqrt 5
  | .monthly => v * Real.sqrt 21

/-- Embedding of `calculate_var` (analysis_service.py lines 23-49): sort the
returns ascending, take the entry at the truncated index, negate it, and
scale by the horizon factor.  Indexing an empty array raises IndexError;
the source has no insufficient-history check and does not clamp the result
at zero. -/
noncomputable def calculate_var (returns : List ℚ) (confidence_level : ℚ)
    (tf : Timeframe) : Except PyErr ℝ :=
  match (sortedReturns returns)[varIndex confidence_level returns.length]? with
  | none => .error .indexError
  | some r => .ok (scaleVar ((-r : ℚ) : ℝ) tf)

/-- Single `pct_change` step between two consecutive price rows: per column,
`cur/prev - 1` when both closes are present, missing (NaN) otherwise. -/
def pctRow (prev cur : List (Option ℚ)) : List (Option ℚ) :=
  prev.zipWith (fun p c =>
    match p, c with
    | some pv, some cv => some (cv / pv - 1)
    | _, _ => none) cur

/-- Row part of `data.pct_change()`: consecutive-row returns; the all-NaN
first row that pandas produces is omitted here because the `dropna()`
that always follows it in the source discards it anyway. -/
def pctChangeRows : List (List (Option ℚ)) → List (List (Option ℚ))
  | [] => []
  | [_] => []
  | p :: c :: rest => pctRow p c :: pctChangeRows (c :: rest)

/-- Embedding of `.dropna()`: keep exactly the rows in which every column is present,
unwrapping the options. -/
def dropnaRows (rows : List (List (Option ℚ))) : List (List ℚ) :=
  rows.filterMap (fun row =>
    if row.all Option.isSome then some row.reduceOption else none)

/-- Aligned returns `data.pct_change().dropna()` (risk_analysis.py line 66
and analysis_service.py line 70), from the downloaded price table: rows are
dates in ascending order, one optional close per symbol. -/
def alignedReturns (table : List (List (Option ℚ))) : List (List ℚ) :=
  dropnaRows (pctChangeRows table)

/-- Dot product of a returns row with the weight vector. -/
def dotQ (xs ys : List ℚ) : ℚ := (xs.zipWith (· * ·) ys).sum

/-- Portfolio return series `returns.dot(weights)` (analysis_service.py
line 73), one scalar per aligned date. -/
def portfolioReturns (table : List (List (Option ℚ))) (weights : List ℚ) :
    List ℚ :=
  (alignedReturns table).map (fun row => dotQ row weights)

/-- Mean `np.mean` of a series. -/
def qMean (xs : List ℚ) : ℚ := xs.sum / xs.length

/-- Square of `np.std` (population variance, ddof = 0), as used at
analysis_service.py line 83. -/
def popVar (xs : List ℚ) : ℚ :=
  (xs.map (fun x => (x - qMean xs) ^ 2)).sum / xs.length

/-- IEEE-faithful model of the unguarded division
`(expected_return - 0.04) / volatility` at analysis_service.py line 90,
where `volatility = sqrt(v) * sqrt(252)` for the population variance `v`
(line 83).  The volatility is zero exactly when `v` is zero; dividing a
finite float by zero yields a signed infinity (or NaN for a zero
numerator), not an exception and not zero. -/
noncomputable def sharpeIEEE (expected_return v : ℚ) : PFloat :=
  if v = 0 then
    if 0 < expected_return - 1/25 then .inf
    else if expected_return - 1/25 < 0 then .ninf
    else .nan
  else .fin (((expected_return - 1/25 : ℚ) : ℝ) /
    (Real.sqrt (v : ℝ) * Real.sqrt 252))

open Classical in
/-- Guarded Sharpe computation of the router (risk_analysis.py line 84):
`(expected_return - risk_free_rate) / volatility if volatility > 0 else 0`. -/
noncomputable def routerSharpe (expected_return volatility : ℝ) : ℝ :=
  if 0 < volatility then (expected_return - 1/25) / volatility else 0

/-- Metric dictionary returned by `calculate_portfolio_var`
(analysis_service.py lines 76-91). -/
structure VarMetrics where
  daily_var : ℝ
  weekly_var : ℝ
  monthly_var : ℝ
  volatility : ℝ
  expected_return : ℝ
  sharpe_ratio : PFloat

/-- Embedding of `calculate_portfolio_var` (analysis_service.py lines
51-96), parametrized by the price table that the yfinance download
produced.  The three VaR figures are computed by `calculate_var` on the
same portfolio-return series; volatility and expected return are annualized
from that series; the Sharpe ratio divides without a zero guard. -/
noncomputable def calculate_portfolio_var (table : List (List (Option ℚ)))
    (weights : List ℚ) (confidence_level : ℚ) : Except PyErr VarMetrics := do
  let d ← calculate_var (portfolioReturns table weights) confidence_level .daily
  let wk ← calculate_var (portfolioReturns table weights) confidence_level .weekly
  let mo ← calculate_var (portfolioReturns table weights) confidence_level .monthly
  pure { daily_var := d, weekly_var := wk, monthly_var := mo,
         volatility := Real.sqrt ((popVar (portfolioReturns table weights) : ℚ) : ℝ) *
           Real.sqrt 252,
         expected_return := ((qMean (portfolioReturns table weights) * 252 : ℚ) : ℝ),
         sharpe_ratio := sharpeIEEE (qMean (portfolioReturns table weights) * 252)
           (popVar (portfolioReturns table weights)) }

theorem callWithKwargs_analyze_typeError {α : Type} (body : Unit → α) :
    callWithKwargs generate_recommendations_params analyze_call_kwargs body =
      .error (.typeError ("risk_metrics")) := rfl

/-- C1: every invocation of `analyze_portfolio_risk` that reaches the
recommendation step raises an exception before constructing the
`RiskAnalysis` record: the call to `generate_recommendations` passes the
unexpected keyword argument `risk_metrics`, so it raises `TypeError` (and
even absent that, the record construction would read the never-assigned
local `var_95`); hence the success branch of the handler is unreachable and
the request ends in the catch-all HTTP 500 error response. -/
theorem analyze_risk_always_errors {Recs : Type} (risk_score : ℤ)
    (volatility sharpe_ratio : ℚ) (recsBody : Unit → Recs) :
    analyzeTryTail risk_score volatility sharpe_ratio recsBody =
        .error (.typeError ("risk_metrics")) ∧
      handlerResponse (analyzeTryTail risk_score volatility sharpe_ratio recsBody) =
        .http500 (.typeError ("risk_metrics")) ∧
      lookupLocal [("volatility", volatility), ("sharpe_ratio", sharpe_ratio)] ("var_95") =
        .error (.nameError ("var_95")) ∧
      ∀ rec, handlerResponse (analyzeTryTail risk_score volatility sharpe_ratio recsBody) ≠
        .success rec := by
  refine ⟨rfl, rfl, rfl, ?_⟩
  intro rec h
  have hr : handlerResponse (analyzeTryTail risk_score volatility sharpe_ratio recsBody) =
      .http500 (.typeError ("risk_metrics")) := rfl
  rw [hr] at h
  exact HandlerResult.noConfusion h

/-- C10 counterexample: for holdings with market values `[1, -2]` the total
is `-1`, which is not `> 0`, so line 59 takes the equal-weighting branch and
returns `[1/2, 1/2]`; the claimed value `value_i / total = 1 / (-1) = -1`
differs, and the total is not 0 either, so neither clause of the claim
describes the code here. -/
theorem resolveWeights_negative_total_counterexample :
    resolveWeights [1, -2] = [1/2, 1/2] ∧
      ((1 : ℚ) + -2 ≠ 0) ∧ (1 : ℚ) / (1 + -2) ≠ 1/2 := by
  refine ⟨?_, by norm_num, by norm_num⟩
  norm_num [resolveWeights]

/-- C10 amended: each resolved weight equals the holding's market value
divided by the total market value when the total is positive; when the total
is zero or negative the engine falls back to equal weighting `1/n` instead
of failing (line 59 tests `total_value > 0`, not `total_value == 0`). -/
theorem resolveWeights_spec (vs : List ℚ) (i : ℕ) (h : i < vs.length) :
    (resolveWeights vs).getD i 0 =
      if 0 < vs.sum then vs.getD i 0 / vs.sum else 1 / (vs.length : ℚ) := by
  unfold resolveWeights
  split
  · simp [List.getD_eq_getElem?_getD, List.getElem?_map, List.getElem?_eq_getElem h]
  · simp [List.getD_eq_getElem?_getD, List.getElem?_map, List.getElem?_eq_getElem h,
      List.getElem?_replicate, h]

/-- Witness for `resolveWeights_spec` at values `[1, 3]`, index 0: the total
4 is positive, so the weight is `1/4`. -/
theorem resolveWeights_spec_witness :
    (resolveWeights [1, 3]).getD 0 0 =
      if 0 < ([1, 3] : List ℚ).sum then ([1, 3] : List ℚ).getD 0 0 / ([1, 3] : List ℚ).sum
      else 1 / (([1, 3] : List ℚ).length : ℚ) :=
  resolveWeights_spec [1, 3] 0 (by norm_num)

/-- C4: the risk score is the deterministic pure function
`min(10, max(1, round(mean(volatility/0.3, daily_var/0.03, |sharpe-2|/2) * 10)))`
of the three metric inputs, and it always lies in the integer interval
`[1, 10]`. -/
theorem riskScore_spec (volatility daily_var sharpe_ratio : ℚ) :
    riskScore volatility daily_var sharpe_ratio =
        min 10 (max 1 (pyRound ((volatility / (3/10) + daily_var / (3/100) +
          |sharpe_ratio - 2| / 2) / 3 * 10))) ∧
      1 ≤ riskScore volatility daily_var sharpe_ratio ∧
      riskScore volatility daily_var sharpe_ratio ≤ 10 := by
  refine ⟨?_, ?_, ?_⟩
  · unfold riskScore
    norm_num [add_assoc]
  · exact le_min (by norm_num) (le_max_left 1 _)
  · exact min_le_left _ _

theorem varIndex_lt_length (rs : List ℚ) (c : ℚ) (h1 : rs ≠ []) (h2 : 0 < c)
    (h3 : c < 1) : varIndex c rs.length < rs.length := by
  have hn : 0 < rs.length := List.length_pos.mpr h1
  have hnn : (0 : ℚ) ≤ (1 - c) * rs.length := by
    have h4 : (0 : ℚ) ≤ 1 - c := by linarith
    have h5 : (0 : ℚ) ≤ (rs.length : ℚ) := by positivity
    exact mul_nonneg h4 h5
  unfold varIndex pyInt
  rw [if_pos hnn]
  have hlt : ⌊(1 - c) * (rs.length : ℚ)⌋ < (rs.length : ℤ) := by
    rw [Int.floor_lt]
    have hq : (1 - c) * (rs.length : ℚ) < 1 * (rs.length : ℚ) := by
      apply mul_lt_mul_of_pos_right
      · linarith
      · exact_mod_cast hn
    push_cast
    linarith
  omega

theorem sortedReturns_length (rs : List ℚ) :
    (sortedReturns rs).length = rs.length :=
  (List.perm_insertionSort (· ≤ ·) rs).length_eq

/-- C3 amended: for every nonempty returns series and confidence level in
(0,1) the daily VaR returned by `calculate_var` equals `-Rp_sorted[idx]`
with `idx = floor((1-c)·n)` and no clamping at zero: when the selected
sorted return is positive the reported VaR is negative, not 0. -/
theorem calculate_var_daily_unclamped (rs : List ℚ) (c : ℚ)
    (h1 : rs ≠ []) (h2 : 0 < c) (h3 : c < 1) :
    calculate_var rs c .daily =
        .ok ((-(sortedReturns rs).getD (varIndex c rs.length) 0 : ℚ) : ℝ) ∧
      (0 < (sortedReturns rs).getD (varIndex c rs.length) 0 →
        ∃ v : ℚ, v < 0 ∧ calculate_var rs c .daily = .ok ((v : ℝ))) := by
  have hidx : varIndex c rs.length < (sortedReturns rs).length := by
    rw [sortedReturns_length]
    exact varIndex_lt_length rs c h1 h2 h3
  have hok : calculate_var rs c .daily =
      .ok ((-(sortedReturns rs).getD (varIndex c rs.length) 0 : ℚ) : ℝ) := by
    unfold calculate_var
    rw [List.getElem?_eq_getElem hidx, List.getD_eq_getElem _ 0 hidx]
    rfl
  exact ⟨hok, fun hpos =>
    ⟨-(sortedReturns rs).getD (varIndex c rs.length) 0, by linarith, hok⟩⟩

/-- Witness for `calculate_var_daily_unclamped`: a single observation 0.01
at confidence 0.95 gives index 0 and daily VaR -0.01. -/
theorem calculate_var_daily_unclamped_witness :
    calculate_var [1/100] (19/20) .daily =
        .ok ((-(sortedReturns [1/100]).getD
          (varIndex (19/20) ([1/100] : List ℚ).length) 0 : ℚ) : ℝ) ∧
      (0 < (sortedReturns [1/100]).getD
          (varIndex (19/20) ([1/100] : List ℚ).length) 0 →
        ∃ v : ℚ, v < 0 ∧ calculate_var [1/100] (19/20) .daily = .ok ((v : ℝ))) :=
  calculate_var_daily_unclamped [1/100] (19/20) (List.cons_ne_nil _ _)
    (by norm_num) (by norm_num)

/-- C3 counterexample: for the returns series `[0.02]` at confidence 0.95
the selected return is positive and `calculate_var` returns the negative
value -0.02, so the claimed clamp `max(0, -Rp_sorted[idx])` (which would
give 0) does not describe the code. -/
theorem calculate_var_negative_counterexample :
    calculate_var [1/50] (19/20) .daily = .ok ((((-1)/50 : ℚ) : ℝ)) ∧
      ((((-1)/50 : ℚ) : ℝ)) < 0 := by
  constructor
  · have hs : sortedReturns [1/50] = [1/50] := by
      norm_num [sortedReturns, List.insertionSort, List.orderedInsert]
    have hi : varIndex (19/20) 1 = 0 := by norm_num [varIndex, pyInt]
    unfold calculate_var
    norm_num [hs, hi, scaleVar]
  · norm_num

/-- C5: the source performs no insufficient-history check.  At the failing
input of a single observation -0.02 with confidence 0.95 (so n = 1 is below
ceil(1/(1-c)) = 20), `calculate_var` returns the numeric value 0.02 instead
of failing with InsufficientHistory; no error of any kind is raised. -/
theorem calculate_var_no_history_check :
    calculate_var [(-1)/50] (19/20) .daily = .ok (((1/50 : ℚ) : ℝ)) ∧
      ∀ e : PyErr, calculate_var [(-1)/50] (19/20) .daily ≠ .error e := by
  have hok : calculate_var [(-1)/50] (19/20) .daily = .ok (((1/50 : ℚ) : ℝ)) := by
    unfold calculate_var
    norm_num [sortedReturns, List.insertionSort, List.orderedInsert, varIndex,
      pyInt, scaleVar]
  refine ⟨hok, fun e h => ?_⟩
  rw [hok] at h
  exact Except.noConfusion h

theorem cpv_eq_ok (table : List (List (Option ℚ))) (ws : List ℚ) (c : ℚ)
    (r : ℚ)
    (hg : (sortedReturns (portfolioReturns table ws))[varIndex c
      (portfolioReturns table ws).length]? = some r) :
    calculate_portfolio_var table ws c = .ok
      { daily_var := ((-r : ℚ) : ℝ),
        weekly_var := ((-r : ℚ) : ℝ) * Real.sqrt 5,
        monthly_var := ((-r : ℚ) : ℝ) * Real.sqrt 21,
        volatility := Real.sqrt ((popVar (portfolioReturns table ws) : ℚ) : ℝ) *
          Real.sqrt 252,
        expected_return := ((qMean (portfolioReturns table ws) * 252 : ℚ) : ℝ),
        sharpe_ratio := sharpeIEEE (qMean (portfolioReturns table ws) * 252)
          (popVar (portfolioReturns table ws)) } := by
  unfold calculate_portfolio_var calculate_var
  rw [hg]
  rfl

/-- C9: whenever `calculate_portfolio_var` returns a metrics dictionary, the
weekly VaR equals the daily VaR multiplied by sqrt(5) and the monthly VaR
equals the daily VaR multiplied by sqrt(21), exactly: all three are scalings
of the same sorted-quantile value of the same portfolio-return series. -/
theorem cpv_sqrt_time_rule (table : List (List (Option ℚ))) (ws : List ℚ)
    (c : ℚ) (m : VarMetrics)
    (h : calculate_portfolio_var table ws c = .ok m) :
    m.weekly_var = m.daily_var * Real.sqrt 5 ∧
      m.monthly_var = m.daily_var * Real.sqrt 21 := by
  cases hg : (sortedReturns (portfolioReturns table ws))[varIndex c
      (portfolioReturns table ws).length]? with
  | none =>
    unfold calculate_portfolio_var calculate_var at h
    rw [hg] at h
    exact Except.noConfusion h
  | some r =>
    rw [cpv_eq_ok table ws c r hg] at h
    injection h with h
    subst h
    exact ⟨rfl, rfl⟩

/-- Witness for `cpv_sqrt_time_rule`: a single instrument with prices
1, 2, 1 gives the portfolio-return series [1, -1/2]; at confidence 1/2 the
metrics dictionary is produced and obeys the square-root-of-time rule. -/
theorem cpv_sqrt_time_rule_witness :
    ∃ m : VarMetrics,
      calculate_portfolio_var [[some 1], [some 2], [some 1]] [1] (1/2) = .ok m ∧
        m.weekly_var = m.daily_var * Real.sqrt 5 ∧
        m.monthly_var = m.daily_var * Real.sqrt 21 := by
  have hprs : portfolioReturns [[some 1], [some 2], [some 1]] [1] = [1, (-1)/2] := by
    norm_num [portfolioReturns, alignedReturns, pctChangeRows, pctRow,
      dropnaRows, dotQ, List.reduceOption, List.forall_mem_cons, Option.isSome,
      List.filterMap_cons, List.filterMap_nil]
  have hg : (sortedReturns (portfolioReturns [[some 1], [some 2], [some 1]] [1]))[
      varIndex (1/2) (portfolioReturns [[some 1], [some 2], [some 1]] [1]).length]? =
      some 1 := by
    rw [hprs]
    norm_num [sortedReturns, List.insertionSort, List.orderedInsert, varIndex, pyInt]
  have hok := cpv_eq_ok [[some 1], [some 2], [some 1]] [1] (1/2) 1 hg
  exact ⟨_, hok, cpv_sqrt_time_rule _ _ _ _ hok⟩

/-- C2 counterexample: a constant price series yields the all-zero
portfolio-return series, so the volatility computed inside
`calculate_portfolio_var` is exactly 0; the unguarded division at
analysis_service.py line 90 then returns negative infinity for the Sharpe
ratio (numerator 0 - 0.04 < 0), not the claimed 0. -/
theorem cpv_sharpe_div_zero_counterexample :
    ∃ m : VarMetrics,
      calculate_portfolio_var [[some 1], [some 1], [some 1]] [1] (19/20) = .ok m ∧
        m.volatility = 0 ∧ m.sharpe_ratio = PFloat.ninf ∧
        m.sharpe_ratio ≠ PFloat.fin 0 := by
  have hprs : portfolioReturns [[some 1], [some 1], [some 1]] [1] = [0, 0] := by
    norm_num [portfolioReturns, alignedReturns, pctChangeRows, pctRow,
      dropnaRows, dotQ, List.reduceOption, List.forall_mem_cons, Option.isSome,
      List.filterMap_cons, List.filterMap_nil]
  have hg : (sortedReturns (portfolioReturns [[some 1], [some 1], [some 1]] [1]))[
      varIndex (19/20) (portfolioReturns [[some 1], [some 1], [some 1]] [1]).length]? =
      some 0 := by
    rw [hprs]
    norm_num [sortedReturns, List.insertionSort, List.orderedInsert, varIndex, pyInt]
  have hok := cpv_eq_ok [[some 1], [some 1], [some 1]] [1] (19/20) 0 hg
  refine ⟨_, hok, ?_, ?_, ?_⟩
  · show Real.sqrt ((popVar (portfolioReturns [[some 1], [some 1], [some 1]] [1]) : ℚ) : ℝ) *
      Real.sqrt 252 = 0
    rw [hprs]
    norm_num [popVar, qMean]
  · show sharpeIEEE (qMean (portfolioReturns [[some 1], [some 1], [some 1]] [1]) * 252)
      (popVar (portfolioReturns [[some 1], [some 1], [some 1]] [1])) = PFloat.ninf
    rw [hprs]
    norm_num [sharpeIEEE, popVar, qMean]
  · show sharpeIEEE (qMean (portfolioReturns [[some 1], [some 1], [some 1]] [1]) * 252)
      (popVar (portfolioReturns [[some 1], [some 1], [some 1]] [1])) ≠ PFloat.fin 0
    rw [hprs]
    norm_num [sharpeIEEE, popVar, qMean]
    exact fun h => PFloat.noConfusion h

/-- C2 amended: the router's Sharpe computation (risk_analysis.py line 84)
is guarded, so a zero (or otherwise non-positive) volatility yields a Sharpe
ratio of exactly 0 with no division; but the Sharpe computation inside
`calculate_portfolio_var` (analysis_service.py line 90) is unguarded, and at
zero volatility it produces a signed infinity or NaN under IEEE float
semantics - never the finite value 0 (and never an exception). -/
theorem sharpe_zero_volatility (er : ℝ) (erq : ℚ) :
    routerSharpe er 0 = 0 ∧
      sharpeIEEE erq 0 ≠ PFloat.fin 0 ∧
      (sharpeIEEE erq 0 = PFloat.inf ∨ sharpeIEEE erq 0 = PFloat.ninf ∨
        sharpeIEEE erq 0 = PFloat.nan) := by
  refine ⟨?_, ?_, ?_⟩
  · unfold routerSharpe
    rw [if_neg (lt_irrefl 0)]
  · unfold sharpeIEEE
    rw [if_pos rfl]
    split
    · simp
    · split <;> simp
  · unfold sharpeIEEE
    rw [if_pos rfl]
    split
    · exact Or.inl rfl
    · split
      · exact Or.inr (Or.inl rfl)
      · exact Or.inr (Or.inr rfl)

/-- Count of non-missing closes in column `j` of the downloaded price
table: the number of observations the price provider returned for the
instrument in that column. -/
def colObsCount (table : List (List (Option ℚ))) (j : ℕ) : ℕ :=
  (table.filterMap (fun row => row.getD j none)).length

/-- Returns-calculation step of the router (risk_analysis.py lines 62-66):
the downloaded table becomes `data.pct_change().dropna()`.  The symbol list
and the weight vector are not modified by this step, and the step raises
nothing: the router has no InsufficientHistory error, no per-instrument
dropping and no weight redistribution. -/
def returnsStep (symbols : List String) (weights : List ℚ)
    (table : List (List (Option ℚ))) :
    Except PyErr (List String × List ℚ × List (List ℚ)) :=
  .ok (symbols, weights, alignedReturns table)

theorem pctRow_length (p c : List (Option ℚ)) :
    (pctRow p c).length = min p.length c.length := by
  simp [pctRow]

theorem pctChangeRows_row_length (w : ℕ) (table : List (List (Option ℚ)))
    (hw : ∀ row ∈ table, row.length = w) :
    ∀ r ∈ pctChangeRows table, r.length = w := by
  induction table with
  | nil => simp [pctChangeRows]
  | cons p tail ih =>
    cases tail with
    | nil => simp [pctChangeRows]
    | cons c rest =>
      intro r hr
      rw [show pctChangeRows (p :: c :: rest) =
        pctRow p c :: pctChangeRows (c :: rest) from rfl] at hr
      rcases List.mem_cons.mp hr with h | h
      · subst h
        rw [pctRow_length, hw p (List.mem_cons_self _ _),
          hw c (List.mem_cons.mpr (Or.inr (List.mem_cons_self _ _)))]
        exact min_self w
      · exact ih (fun row hrow => hw row (List.mem_cons.mpr (Or.inr hrow))) r h

theorem reduceOption_length_of_all_isSome (row : List (Option ℚ))
    (h : row.all Option.isSome) : row.reduceOption.length = row.length := by
  induction row with
  | nil => rfl
  | cons a l ih =>
    rw [List.all_cons, Bool.and_eq_true] at h
    obtain ⟨ha, hl⟩ := h
    cases a with
    | none => exact absurd ha (by simp)
    | some v => simp [List.reduceOption_cons_of_some, ih hl]

theorem alignedReturns_row_length (w : ℕ) (table : List (List (Option ℚ)))
    (hw : ∀ row ∈ table, row.length = w) :
    ∀ r ∈ alignedReturns table, r.length = w := by
  intro r hr
  unfold alignedReturns dropnaRows at hr
  rcases List.mem_filterMap.mp hr with ⟨row, hrow, hsome⟩
  by_cases hall : row.all Option.isSome
  · rw [if_pos hall] at hsome
    cases hsome
    rw [reduceOption_length_of_all_isSome row hall]
    exact pctChangeRows_row_length w table hw row hrow
  · rw [if_neg hall] at hsome
    exact Option.noConfusion hsome

/-- C6 amended: the returns-calculation step of the router computes
`data.pct_change().dropna()` on the joint price table: rows with any missing
value are dropped, instruments are never dropped, the weight vector is never
redistributed (symbols and weights pass through unchanged), and the step
never fails - in particular there is no InsufficientHistory error.  For a
rectangular table every surviving aligned row still has one return per
instrument: an instrument with insufficient history shrinks the common row
set (possibly to empty) instead of being removed. -/
theorem returnsStep_no_dropping (symbols : List String) (weights : List ℚ)
    (table : List (List (Option ℚ))) (w : ℕ)
    (hw : ∀ row ∈ table, row.length = w) :
    returnsStep symbols weights table =
        .ok (symbols, weights, alignedReturns table) ∧
      (∀ r ∈ alignedReturns table, r.length = w) ∧
      ∀ e : PyErr, returnsStep symbols weights table ≠ .error e :=
  ⟨rfl, alignedReturns_row_length w table hw, fun _ h => Except.noConfusion h⟩

/-- Witness for `returnsStep_no_dropping` on a 2-instrument, 2-date table
with no missing values. -/
theorem returnsStep_no_dropping_witness :
    returnsStep (["A", "B"]) [1/2, 1/2] [[some 1, some 2], [some 2, some 4]] =
        .ok ((["A", "B"]), [1/2, 1/2],
          alignedReturns [[some 1, some 2], [some 2, some 4]]) ∧
      (∀ r ∈ alignedReturns [[some 1, some 2], [some 2, some 4]], r.length = 2) ∧
      ∀ e : PyErr, returnsStep (["A", "B"]) [1/2, 1/2]
        [[some 1, some 2], [some 2, some 4]] ≠ .error e :=
  returnsStep_no_dropping (["A", "B"]) [1/2, 1/2]
    [[some 1, some 2], [some 2, some 4]] 2 (by
      intro row hrow
      rcases List.mem_cons.mp hrow with h | h
      · subst h; rfl
      · rcases List.mem_cons.mp h with h2 | h2
        · subst h2; rfl
        · exact absurd h2 (List.not_mem_nil _))

/-- C6 counterexample: in this table instrument B (column 1) has a single
non-missing close, hence fewer than 2 aligned observations, yet the step
neither drops B, nor renormalizes the weights, nor fails with
InsufficientHistory: it returns both symbols with their original weights
and an empty aligned returns matrix. -/
theorem returnsStep_short_history_counterexample :
    returnsStep (["A", "B"]) [7/10, 3/10]
        [[some 1, none], [some 2, none], [some 4, some 5]] =
      .ok ((["A", "B"]), [7/10, 3/10], []) ∧
      colObsCount [[some 1, none], [some 2, none], [some 4, some 5]] 1 = 1 := by
  constructor
  · rfl
  · rfl

/-- High-correlation diversification message (risk_analysis.py line 147). -/
def highCorrMsg : String :=
  "Your portfolio shows high correlation between assets. Consider adding uncorrelated assets to improve diversification."

/-- Moderate-diversification message (risk_analysis.py line 149). -/
def moderateCorrMsg : String :=
  "Your portfolio has moderate diversification. Consider adding assets from different sectors to reduce correlation."

/-- Well-diversified message (risk_analysis.py line 151). -/
def wellDiversifiedMsg : String :=
  "Your portfolio is well-diversified with low correlation between assets."

/-- Entries of the strictly upper triangular part of a square matrix, row by
row: `corr_matrix.values[np.triu_indices_from(corr_matrix.values, 1)]`
(risk_analysis.py line 144). -/
def upperTriEntries (m : List (List ℚ)) : List ℚ :=
  (m.enum.map (fun p => p.2.drop (p.1 + 1))).flatten

/-- Mean of a numpy float array; the mean of an empty selection is NaN,
modelled as `none`. -/
def npMeanOpt (xs : List ℚ) : Option ℚ :=
  if xs.isEmpty then none else some (xs.sum / xs.length)

/-- Comparison `avg > t` where `avg` may be NaN: every IEEE comparison with
NaN is false. -/
def gtNaN (a : Option ℚ) (t : ℚ) : Bool :=
  match a with
  | none => false
  | some x => decide (t < x)

/-- Diversification-message selection of `generate_recommendations`
(risk_analysis.py lines 144-151), as a function of the pairwise correlation
matrix computed at line 141: mean of the strictly-upper-triangular entries,
then the two threshold tests `> 0.7` and `> 0.5`. -/
def diversificationMessage (corr : List (List ℚ)) : String :=
  if gtNaN (npMeanOpt (upperTriEntries corr)) (7/10) then highCorrMsg
  else if gtNaN (npMeanOpt (upperTriEntries corr)) (1/2) then moderateCorrMsg
  else wellDiversifiedMsg

/-- C7 counterexample: for a single-instrument portfolio the correlation
matrix is 1-by-1, the strict upper triangle is empty, its numpy mean is NaN,
both threshold comparisons are false, and the code emits the ordinary
well-diversified band message - not a distinct "not applicable" state. -/
theorem diversification_single_instrument_counterexample :
    upperTriEntries [[1]] = [] ∧
      npMeanOpt (upperTriEntries [[1]]) = none ∧
      diversificationMessage [[1]] = wellDiversifiedMsg := by
  exact ⟨rfl, rfl, rfl⟩

/-- C7 amended: the diversification message is selected from the mean of the
strictly-upper-triangular entries of the correlation matrix with the claimed
bands (above 0.7 high correlation, in (0.5, 0.7] moderate, at or below 0.5
well-diversified); but for a single-instrument portfolio (no pairs) the mean
is NaN, both comparisons are false, and the code emits the well-diversified
band message rather than an explicit "not applicable" state. -/
theorem diversificationMessage_spec (corr : List (List ℚ)) (a : ℚ)
    (h : npMeanOpt (upperTriEntries corr) = some a) :
    (7/10 < a → diversificationMessage corr = highCorrMsg) ∧
      (1/2 < a → a ≤ 7/10 → diversificationMessage corr = moderateCorrMsg) ∧
      (a ≤ 1/2 → diversificationMessage corr = wellDiversifiedMsg) ∧
      ∀ c2 : List (List ℚ), upperTriEntries c2 = [] →
        diversificationMessage c2 = wellDiversifiedMsg := by
  refine ⟨?_, ?_, ?_, ?_⟩
  · intro ha
    unfold diversificationMessage
    rw [h]
    simp [gtNaN, ha]
  · intro h1 h2
    have h7 : ¬ (7/10 : ℚ) < a := not_lt.mpr h2
    unfold diversificationMessage
    rw [h]
    rw [if_neg (by simp [gtNaN]; linarith), if_pos (by simp [gtNaN]; linarith)]
  · intro hle
    have h7 : ¬ (7/10 : ℚ) < a := by linarith
    have h5 : ¬ (1/2 : ℚ) < a := not_lt.mpr hle
    unfold diversificationMessage
    rw [h]
    rw [if_neg (by simp [gtNaN]; linarith), if_neg (by simp [gtNaN]; linarith)]
  · intro c2 h2
    unfold diversificationMessage
    rw [h2]
    rfl

/-- Witness for `diversificationMessage_spec`: a two-instrument correlation
matrix with off-diagonal correlation 0.85 selects the high-correlation
message. -/
theorem diversificationMessage_spec_witness :
    diversificationMessage [[1, 17/20], [17/20, 1]] = highCorrMsg := by
  have hm : npMeanOpt (upperTriEntries [[1, 17/20], [17/20, 1]]) = some (17/20) := by
    norm_num [npMeanOpt, upperTriEntries, List.enum, List.enumFrom]
  exact (diversificationMessage_spec [[1, 17/20], [17/20, 1]] (17/20) hm).1 (by norm_num)

/-- Empty string default used for list lookups of symbols. -/
def emptyStr : String := ""

/-- Action tag of an optimization suggestion (risk_analysis.py line 172). -/
def reduceAction : String := "reduce"

/-- One optimization suggestion (risk_analysis.py lines 170-174); the
formatted reason string is modelled by carrying the Sharpe value it
embeds. -/
structure OptEntry where
  symbol : String
  action : String
  sharpeVal : ℝ

/-- Square of pandas `Series.std()` (sample variance, ddof = 1): undefined
(NaN, modelled as `none`) for fewer than 2 observations. -/
def sampleVarOpt (xs : List ℚ) : Option ℚ :=
  if xs.length < 2 then none
  else some ((xs.map (fun x => (x - qMean xs) ^ 2)).sum / ((xs.length : ℚ) - 1))

/-- Per-asset annualized Sharpe ratio (risk_analysis.py lines 165-167):
`asset_return / asset_risk if asset_risk > 0 else 0` with
`asset_return = mean * 252` and `asset_risk = std * sqrt(252)`.  The test
`asset_risk > 0` holds exactly when the sample variance is positive (a NaN
standard deviation makes the comparison false), so the embedded case split
is on the variance. -/
noncomputable def assetSharpe (xs : List ℚ) : ℝ :=
  match sampleVarOpt xs with
  | none => 0
  | some v =>
    if 0 < v then
      ((qMean xs * 252 : ℚ) : ℝ) / (Real.sqrt ((v : ℚ) : ℝ) * Real.sqrt 252)
    else 0

open Classical in
/-- Optimization loop of `generate_recommendations` (risk_analysis.py lines
163-174): iterate over the instruments in input order and append a reduce
entry exactly when the individual Sharpe ratio is below 0.1 and the weight
exceeds 0.1. -/
noncomputable def generateOptimization :
    List String → List (List ℚ) → List ℚ → List OptEntry
  | s :: syms, col :: cols, w :: ws =>
    (if assetSharpe col < 1/10 ∧ 1/10 < w then
      [{ symbol := s, action := reduceAction, sharpeVal := assetSharpe col }]
    else []) ++ generateOptimization syms cols ws
  | _, _, _ => []

/-- Summary message bands (risk_analysis.py lines 154-159). -/
def summaryMessage (risk_score : ℤ) : String :=
  if 8 ≤ risk_score then
    "Your portfolio has a high risk profile. Consider reducing exposure to volatile assets if this exceeds your risk tolerance."
  else if 5 ≤ risk_score then
    "Your portfolio has a moderate risk profile, which is suitable for balanced investment goals."
  else
    "Your portfolio has a conservative risk profile with lower potential returns but better capital preservation."

/-- Recommendation dictionary built by `generate_recommendations`
(risk_analysis.py lines 133-138). -/
structure Recommendations where
  summary : String
  diversification : String
  sector_exposure : String
  optimization : List OptEntry

/-- Embedding of the body of `generate_recommendations` (risk_analysis.py
lines 131-176), as a function of the pairwise correlation matrix (computed
by pandas at line 141), the per-instrument aligned return columns, the
weights, the symbols and the risk score. -/
noncomputable def generate_recommendations (corr : List (List ℚ))
    (cols : List (List ℚ)) (weights : List ℚ) (symbols : List String)
    (risk_score : ℤ) : Recommendations :=
  { summary := summaryMessage risk_score,
    diversification := diversificationMessage corr,
    sector_exposure := emptyStr,
    optimization := generateOptimization symbols cols weights }

theorem generateOptimization_symbols_sublist (syms : List String) :
    ∀ (cols : List (List ℚ)) (ws : List ℚ),
      ((generateOptimization syms cols ws).map OptEntry.symbol).Sublist syms := by
  induction syms with
  | nil =>
    intro cols ws
    rw [show generateOptimization [] cols ws = [] from rfl]
    simp
  | cons s rest ih =>
    intro cols ws
    cases cols with
    | nil =>
      rw [show generateOptimization (s :: rest) [] ws = [] from rfl]
      simp
    | cons col cols2 =>
      cases ws with
      | nil =>
        rw [show generateOptimization (s :: rest) (col :: cols2) [] = [] from rfl]
        simp
      | cons w ws2 =>
        simp only [generateOptimization]
        by_cases hc : assetSharpe col < 1/10 ∧ 1/10 < w
        · rw [if_pos hc]
          simp only [List.singleton_append, List.map_cons]
          exact (ih cols2 ws2).cons₂ s
        · rw [if_neg hc]
          simp only [List.nil_append]
          exact (ih cols2 ws2).cons s

theorem mem_generateOptimization_iff (syms : List String) :
    ∀ (cols : List (List ℚ)) (ws : List ℚ), cols.length = syms.length →
      ws.length = syms.length → syms.Nodup → ∀ i : ℕ, i < syms.length →
      ((∃ e ∈ generateOptimization syms cols ws,
          e.symbol = syms.getD i emptyStr ∧ e.action = reduceAction)
        ↔ (assetSharpe (cols.getD i []) < 1/10 ∧ 1/10 < ws.getD i 0)) := by
  induction syms with
  | nil =>
    intro cols ws _ _ _ i hi
    exact absurd hi (Nat.not_lt_zero i)
  | cons s rest ih =>
    intro cols ws h1 h2 hnd i hi
    cases cols with
    | nil => exact absurd h1 (by simp)
    | cons col cols2 =>
    cases ws with
    | nil => exact absurd h2 (by simp)
    | cons w ws2 =>
    have h1' : cols2.length = rest.length := by simpa using h1
    have h2' : ws2.length = rest.length := by simpa using h2
    have hs : s ∉ rest := (List.nodup_cons.mp hnd).1
    have hnd' : rest.Nodup := (List.nodup_cons.mp hnd).2
    cases i with
    | zero =>
      simp only [List.getD_cons_zero]
      by_cases hc : assetSharpe col < 1/10 ∧ 1/10 < w
      · refine iff_of_true ?_ hc
        refine ⟨OptEntry.mk s reduceAction (assetSharpe col), ?_, rfl, rfl⟩
        simp only [generateOptimization]
        rw [if_pos hc]
        exact List.mem_append_left _ (List.mem_singleton_self _)
      · refine iff_of_false ?_ hc
        rintro ⟨e, he, hsym, hact⟩
        simp only [generateOptimization] at he
        rw [if_neg hc] at he
        simp only [List.nil_append] at he
        have hmem : e.symbol ∈ rest :=
          (generateOptimization_symbols_sublist rest cols2 ws2).subset
            (List.mem_map_of_mem OptEntry.symbol he)
        rw [hsym] at hmem
        exact hs hmem
    | succ j =>
      have hj : j < rest.length := by simpa using hi
      have hgd : rest.getD j emptyStr ∈ rest := by
        rw [List.getD_eq_getElem _ _ hj]
        exact List.getElem_mem _
      simp only [List.getD_cons_succ]
      by_cases hc : assetSharpe col < 1/10 ∧ 1/10 < w
      · constructor
        · rintro ⟨e, he, hsym, hact⟩
          simp only [generateOptimization] at he
          rw [if_pos hc] at he
          simp only [List.singleton_append] at he
          rcases List.mem_cons.mp he with h | h
          · subst h
            rw [← hsym] at hgd
            exact absurd hgd hs
          · exact (ih cols2 ws2 h1' h2' hnd' j hj).mp ⟨e, h, hsym, hact⟩
        · intro hcond
          obtain ⟨e, he, hsym, hact⟩ := (ih cols2 ws2 h1' h2' hnd' j hj).mpr hcond
          refine ⟨e, ?_, hsym, hact⟩
          simp only [generateOptimization]
          rw [if_pos hc]
          exact List.mem_append_right _ he
      · constructor
        · rintro ⟨e, he, hsym, hact⟩
          simp only [generateOptimization] at he
          rw [if_neg hc] at he
          simp only [List.nil_append] at he
          exact (ih cols2 ws2 h1' h2' hnd' j hj).mp ⟨e, he, hsym, hact⟩
        · intro hcond
          obtain ⟨e, he, hsym, hact⟩ := (ih cols2 ws2 h1' h2' hnd' j hj).mpr hcond
          refine ⟨e, ?_, hsym, hact⟩
          simp only [generateOptimization]
          rw [if_neg hc]
          exact List.mem_append_right _ he

/-- C8: an instrument contributes a reduce entry to the optimization list
exactly when its individual annualized Sharpe ratio (0 substituted when its
volatility is zero or undefined) is below 0.1 and its weight exceeds 0.10;
and the emitted symbols form a sublist of the input symbol list, so entries
appear in the instruments' input order with no sorting by severity. -/
theorem optimization_entry_iff (symbols : List String) (cols : List (List ℚ))
    (weights : List ℚ) (h1 : cols.length = symbols.length)
    (h2 : weights.length = symbols.length) (hnd : symbols.Nodup) (i : ℕ)
    (hi : i < symbols.length) :
    ((generateOptimization symbols cols weights).map OptEntry.symbol).Sublist
        symbols ∧
      ((∃ e ∈ generateOptimization symbols cols weights,
          e.symbol = symbols.getD i emptyStr ∧ e.action = reduceAction)
        ↔ (assetSharpe (cols.getD i []) < 1/10 ∧ 1/10 < weights.getD i 0)) :=
  ⟨generateOptimization_symbols_sublist symbols cols weights,
    mem_generateOptimization_iff symbols cols weights h1 h2 hnd i hi⟩

theorem assetSharpe_of_sampleVar (xs : List ℚ) (v : ℚ)
    (hv : sampleVarOpt xs = some v) (hpos : 0 < v) :
    assetSharpe xs =
      ((qMean xs * 252 : ℚ) : ℝ) / (Real.sqrt ((v : ℚ) : ℝ) * Real.sqrt 252) := by
  unfold assetSharpe
  rw [hv]
  exact if_pos hpos

/-- Witness for `optimization_entry_iff`: instrument X has weight 0.15 and a
negative-mean return series (individual Sharpe below 0, hence below 0.1), so
a reduce entry for X appears in the optimization list. -/
theorem optimization_entry_iff_witness :
    ∃ e ∈ generateOptimization (["X", "Y"])
        [[(-1)/100, (-3)/100], [(-1)/100, (-3)/100]] [3/20, 1/20],
      e.symbol = (["X", "Y"] : List String).getD 0 emptyStr ∧
        e.action = reduceAction := by
  have hv : sampleVarOpt [(-1)/100, (-3)/100] = some (1/5000) := by
    norm_num [sampleVarOpt, qMean]
  have hsh : assetSharpe [(-1)/100, (-3)/100] < 1/10 := by
    rw [assetSharpe_of_sampleVar [(-1)/100, (-3)/100] (1/5000) hv (by norm_num)]
    have hneg : ((qMean [(-1)/100, (-3)/100] * 252 : ℚ) : ℝ) < 0 := by
      have : (qMean [(-1)/100, (-3)/100] * 252 : ℚ) = (-126)/25 := by
        norm_num [qMean]
      rw [this]
      norm_num
    have hpos : (0 : ℝ) < Real.sqrt (((1/5000 : ℚ) : ℚ) : ℝ) * Real.sqrt 252 := by
      apply mul_pos
      · apply Real.sqrt_pos.mpr
        norm_num
      · apply Real.sqrt_pos.mpr
        norm_num
    have := div_neg_of_neg_of_pos hneg hpos
    linarith
  exact (optimization_entry_iff (["X", "Y"])
    [[(-1)/100, (-3)/100], [(-1)/100, (-3)/100]] [3/20, 1/20] rfl rfl
    (by simp) 0 (by norm_num)).2.mpr ⟨by simpa using hsh, by norm_num⟩
